import Mathlib

/-!
Verification of the Erika threat-assessment and mitigation pipeline.

Shallow embedding of the relevant program parts:
* `erika/services/ares_bridge.py` — threat scoring and client mitigation,
* `erika/services/footprint_analyzer.py` — sender-domain footprint heuristic,
* `erika/plugins/email/gmail_service.py` — text-field sanitization,
* `erika/plugins/email/oauth_token_manager.py` — token load/refresh/revocation,
* `erika/services/reverse_image_search.py` — reverse-image-search result analysis.

Strings are modelled as `List Char`; floating-point scores as `ℚ` (all the
constants involved are exact decimal fractions, so rational arithmetic agrees
with the intended real-number semantics); Python exceptions as `Except`.
-/

/-- Python built-in `min` on two rationals (first argument preferred on ties),
written with an explicit comparison so that it evaluates by kernel reduction. -/
def qmin (a b : ℚ) : ℚ := if a ≤ b then a else b

/-- Python built-in `max` on two rationals (first argument preferred on ties). -/
def qmax (a b : ℚ) : ℚ := if b ≤ a then a else b

theorem qmin_eq_min (a b : ℚ) : qmin a b = min a b := by
  simp [qmin, min_def]

theorem qmax_eq_max (a b : ℚ) : qmax a b = max a b := by
  unfold qmax
  rcases le_or_lt b a with h | h
  · rw [if_pos h, max_eq_left h]
  · rw [if_neg (not_le.mpr h), max_eq_right h.le]

/-- Substring test: `containsSub needle hay` is true iff `needle` occurs as a
contiguous substring of `hay`.  Models the Python `in` operator on strings and
`re.search` applied to a literal pattern. -/
def containsSub (needle : List Char) : List Char → Bool
  | [] => needle.isEmpty
  | c :: t => needle.isPrefixOf (c :: t) || containsSub needle t

/-- ASCII lower-casing of a character list, modelling Python `str.lower()`
on ASCII text (the program only compares against ASCII keyword lists). -/
def lowerStr (l : List Char) : List Char := l.map Char.toLower

/-- Characters matched by the regex class `[a-zA-Z0-9.-]` used in the
sender-domain pattern of `AresBridge._detect_domain_mismatch` (line 168) and
`FootprintAnalyzer._extract_domain` (line 105). -/
def isDomainChar (c : Char) : Bool := c.isAlphanum || c == '.' || c == '-'

/-- Characters matched by `[a-zA-Z]`. -/
def isAsciiAlpha (c : Char) : Bool := c.isAlpha

/-- Match of the capture group `([a-zA-Z0-9.-]+\.[a-zA-Z]{2,})` at the start of
`l` (the text following an `@`), with the greedy-backtracking semantics of
Python `re`: the `+` consumes as many characters as possible such that a
literal dot and at least two ASCII letters follow; the trailing `[a-zA-Z]{2,}`
is greedy.  Since `.` and letters are themselves in `[a-zA-Z0-9.-]`, the whole
match lies inside the maximal run of domain characters. -/
def domainGroupAt (l : List Char) : Option (List Char) :=
  let run := l.takeWhile isDomainChar
  match (List.range run.length).reverse.find?
      (fun k => decide (1 ≤ k) && (run.getD k ' ' == '.')
        && isAsciiAlpha (run.getD (k+1) ' ') && isAsciiAlpha (run.getD (k+2) ' ')) with
  | none => none
  | some k => some (run.take k ++ '.' :: (run.drop (k+1)).takeWhile isAsciiAlpha)

/-- `re.search` for the pattern `@([a-zA-Z0-9.-]+\.[a-zA-Z]{2,})`: scan left to
right for an `@` whose suffix matches the capture group, returning the group.
Shared by `AresBridge._detect_domain_mismatch` and
`FootprintAnalyzer._extract_domain` (identical regex in both). -/
def extract_domain : List Char → Option (List Char)
  | [] => none
  | c :: t =>
    if c == '@' then
      match domainGroupAt t with
      | some g => some g
      | none => extract_domain t
    else extract_domain t

/-- The personal-domain list of `AresBridge._detect_domain_mismatch`
(lines 175-176). -/
def personal_domains_ares : List (List Char) :=
  ["gmail.com".toList, "yahoo.com".toList, "hotmail.com".toList, "outlook.com".toList,
   "icloud.com".toList, "protonmail.com".toList, "aol.com".toList]

/-- The professional-role keyword patterns of `AresBridge._detect_domain_mismatch`
(lines 182-187).  Every pattern is a literal (the regex escape in `inc\.` makes
it the literal string `inc.`), so `re.search` on the lower-cased body is
substring containment. -/
def professional_keywords : List (List Char) :=
  ["recruiter".toList, "hiring manager".toList, "hr department".toList,
   "human resources".toList, "company".toList, "corporation".toList,
   "inc.".toList, "llc".toList, "ltd".toList, "financial advisor".toList,
   "bank".toList, "investment".toList, "legal counsel".toList,
   "attorney".toList, "law firm".toList, "accountant".toList, "cpa".toList]

/-- `AresBridge._detect_domain_mismatch` (lines 153-198): true iff the sender
address uses a personal-mail domain while the body claims a professional role. -/
def detect_domain_mismatch (sender body : List Char) : Bool :=
  match extract_domain sender with
  | none => false
  | some g =>
    let domain := lowerStr g
    if domain ∈ personal_domains_ares then
      professional_keywords.any (fun kw => containsSub kw (lowerStr body))
    else false

/-- Footprint contribution of `AresBridge.calculate_threat_score`
(lines 88-100). -/
def footprint_risk (source_count age_days : Int) : ℚ :=
  if source_count = 0 ∧ age_days < 90 then 0.40
  else if source_count < 3 ∧ age_days < 180 then 0.20
  else if source_count < 10 then 0.10
  else 0.0

/-- Domain-mismatch contribution (lines 102-111). -/
def domain_mismatch_risk_val (sender body : List Char) : ℚ :=
  if detect_domain_mismatch sender body then 0.30 else 0.0

/-- Content contribution (lines 113-118): clamp to `[0,1]`, weight by `0.30`,
cap at `0.30`. -/
def content_risk_val (content_risk_score : ℚ) : ℚ :=
  qmin (qmax 0.0 (qmin 1.0 content_risk_score) * 0.30) 0.30

/-- The final score (lines 120-122): sum of the three contributions, capped
at `1.0`. -/
def final_threat_score (sender body : List Char) (source_count age_days : Int)
    (content_risk_score : ℚ) : ℚ :=
  qmin (footprint_risk source_count age_days + domain_mismatch_risk_val sender body
       + content_risk_val content_risk_score) 1.0

/-- The `scoring_breakdown` dictionary of `AresBridge.calculate_threat_score`. -/
structure ScoringBreakdown where
  footprint_risk : ℚ
  domain_mismatch_risk : ℚ
  content_risk : ℚ
deriving DecidableEq

/-- The result dictionary of `AresBridge.calculate_threat_score`. -/
structure ThreatResult where
  threat_score : ℚ
  scoring_breakdown : ScoringBreakdown
  mitigation_action_recommended : String
deriving DecidableEq

/-- `AresBridge.calculate_threat_score` (lines 44-138), success path.  The
`email_analysis` dictionary enters only through `sender` and `body`
(via `.get` with default `''`); `footprint_data` through `source_count`
(default `0`) and `age_days` (default `999`), both passed here explicitly. -/
def calculate_threat_score (sender body : List Char) (source_count age_days : Int)
    (content_risk_score : ℚ) : ThreatResult :=
  { threat_score := final_threat_score sender body source_count age_days content_risk_score
  , scoring_breakdown :=
      { footprint_risk := footprint_risk source_count age_days
      , domain_mismatch_risk := domain_mismatch_risk_val sender body
      , content_risk := content_risk_val content_risk_score }
  , mitigation_action_recommended :=
      if final_threat_score sender body source_count age_days content_risk_score ≥ 0.8 then
        "MARK_AS_PHISHING"
      else if final_threat_score sender body source_count age_days content_risk_score ≥ 0.5 then
        "FLAG"
      else "NONE" }

/-- The internal-failure return value of `AresBridge.calculate_threat_score`
(lines 140-151): moderate default risk `0.50`, all-zero breakdown, action
`FLAG`. -/
def calculate_threat_score_onError : ThreatResult :=
  { threat_score := 0.50
  , scoring_breakdown :=
      { footprint_risk := 0.0, domain_mismatch_risk := 0.0, content_risk := 0.0 }
  , mitigation_action_recommended := "FLAG" }

theorem footprint_risk_cases (sc ad : Int) :
    footprint_risk sc ad = 0.0 ∨ footprint_risk sc ad = 0.10 ∨
    footprint_risk sc ad = 0.20 ∨ footprint_risk sc ad = 0.40 := by
  unfold footprint_risk
  split_ifs <;> simp

theorem footprint_risk_bounds (sc ad : Int) :
    0 ≤ footprint_risk sc ad ∧ footprint_risk sc ad ≤ 0.40 := by
  rcases footprint_risk_cases sc ad with h | h | h | h <;> rw [h] <;> norm_num

theorem domain_mismatch_risk_val_bounds (sender body : List Char) :
    0 ≤ domain_mismatch_risk_val sender body ∧ domain_mismatch_risk_val sender body ≤ 0.30 := by
  unfold domain_mismatch_risk_val
  split <;> norm_num

theorem content_risk_val_bounds (c : ℚ) :
    0 ≤ content_risk_val c ∧ content_risk_val c ≤ 0.30 := by
  unfold content_risk_val
  rw [qmin_eq_min, qmax_eq_max, qmin_eq_min]
  refine ⟨le_min (mul_nonneg ?_ (by norm_num)) (by norm_num), min_le_right _ _⟩
  have h0 : (0 : ℚ) ≤ 0.0 := by norm_num
  exact h0.trans (le_max_left _ _)

/-- The `min _ 1.0` cap in `calculate_threat_score` (line 122) never truncates:
the three contributions already sum to at most `0.40 + 0.30 + 0.30 = 1.0`. -/
theorem final_threat_score_eq_sum (sender body : List Char) (sc ad : Int) (c : ℚ) :
    final_threat_score sender body sc ad c =
      footprint_risk sc ad + domain_mismatch_risk_val sender body + content_risk_val c := by
  unfold final_threat_score
  rw [qmin_eq_min, min_eq_left]
  have h1 := footprint_risk_bounds sc ad
  have h2 := domain_mismatch_risk_val_bounds sender body
  have h3 := content_risk_val_bounds c
  have : (1.0 : ℚ) = 0.40 + 0.30 + 0.30 := by norm_num
  rw [this]
  exact add_le_add (add_le_add h1.2 h2.2) h3.2

/-- Claim C1 (amended).  On the normal path of
`AresBridge.calculate_threat_score`, the returned `threat_score` lies in
`[0, 1]` and equals exactly the sum
`footprint_risk + domain_mismatch_risk + content_risk` of its
`scoring_breakdown`.  On the internal-failure path the score `0.50` still lies
in `[0, 1]`, but the breakdown components are all `0.0`, so their sum is `0`
and the sum equality fails there (see the counterexample theorem). -/
theorem C1_threat_score_bounds_and_sum (sender body : List Char) (sc ad : Int) (c : ℚ) :
    (0 ≤ (calculate_threat_score sender body sc ad c).threat_score ∧
     (calculate_threat_score sender body sc ad c).threat_score ≤ 1 ∧
     (calculate_threat_score sender body sc ad c).threat_score =
       (calculate_threat_score sender body sc ad c).scoring_breakdown.footprint_risk +
       (calculate_threat_score sender body sc ad c).scoring_breakdown.domain_mismatch_risk +
       (calculate_threat_score sender body sc ad c).scoring_breakdown.content_risk) ∧
    (0 ≤ calculate_threat_score_onError.threat_score ∧
     calculate_threat_score_onError.threat_score ≤ 1 ∧
     calculate_threat_score_onError.scoring_breakdown.footprint_risk +
       calculate_threat_score_onError.scoring_breakdown.domain_mismatch_risk +
       calculate_threat_score_onError.scoring_breakdown.content_risk = 0) := by
  have h1 := footprint_risk_bounds sc ad
  have h2 := domain_mismatch_risk_val_bounds sender body
  have h3 := content_risk_val_bounds c
  have hsum := final_threat_score_eq_sum sender body sc ad c
  refine ⟨⟨?_, ?_, ?_⟩, ?_, ?_, ?_⟩
  · show 0 ≤ final_threat_score sender body sc ad c
    rw [hsum]; linarith [h1.1, h2.1, h3.1]
  · show final_threat_score sender body sc ad c ≤ 1
    rw [hsum]
    have : (1 : ℚ) = 0.40 + 0.30 + 0.30 := by norm_num
    rw [this]; linarith [h1.2, h2.2, h3.2]
  · exact hsum
  · show (0 : ℚ) ≤ 0.50; norm_num
  · show (0.50 : ℚ) ≤ 1; norm_num
  · show (0.0 : ℚ) + 0.0 + 0.0 = 0; norm_num

/-- Claim C1 counterexample: the internal-failure return value of
`calculate_threat_score` (lines 143-151) reports `threat_score = 0.50` while
its breakdown components are all `0.0`, so the score does not equal the sum of
the breakdown (no floating-point tolerance covers a gap of `0.5`). -/
theorem C1_failure_path_counterexample :
    calculate_threat_score_onError.threat_score ≠
      calculate_threat_score_onError.scoring_breakdown.footprint_risk +
      calculate_threat_score_onError.scoring_breakdown.domain_mismatch_risk +
      calculate_threat_score_onError.scoring_breakdown.content_risk := by
  show (0.50 : ℚ) ≠ 0.0 + 0.0 + 0.0
  norm_num

/-- Claim C2: `calculate_threat_score` maps the final score to the recommended
action by the thresholds `score ≥ 0.8 → MARK_AS_PHISHING`,
`0.5 ≤ score < 0.8 → FLAG`, `score < 0.5 → NONE` (an if-chain, so each range
gets exactly the stated action); and the internal-failure return value carries
`threat_score = 0.5` with action `FLAG`, which is not `NONE`. -/
theorem C2_threshold_mapping (sender body : List Char) (sc ad : Int) (c : ℚ) :
    ((calculate_threat_score sender body sc ad c).mitigation_action_recommended =
      if (calculate_threat_score sender body sc ad c).threat_score ≥ 0.8 then "MARK_AS_PHISHING"
      else if (calculate_threat_score sender body sc ad c).threat_score ≥ 0.5 then "FLAG"
      else "NONE") ∧
    calculate_threat_score_onError.threat_score = 0.5 ∧
    calculate_threat_score_onError.mitigation_action_recommended = "FLAG" ∧
    calculate_threat_score_onError.mitigation_action_recommended ≠ "NONE" := by
  refine ⟨rfl, ?_, rfl, by decide⟩
  show (0.50 : ℚ) = 0.5
  norm_num

/-- Claim C3 (Scenario A): sender `Jane Doe <jane@gmail.com>`, a body
containing `I\x27m a recruiter at Acme Corp`, footprint
`source_count = 0, age_days = 10`, `content_risk_score = 0.0` yield
`footprint_risk = 0.40`, `domain_mismatch_risk = 0.30`, `content_risk = 0.0`,
`threat_score = 0.70` and recommended action `FLAG`. -/
theorem C3_scenario_A :
    (calculate_threat_score "Jane Doe <jane@gmail.com>".toList
      "I\x27m a recruiter at Acme Corp".toList 0 10
      0.0).scoring_breakdown.footprint_risk = 0.40 ∧
    (calculate_threat_score "Jane Doe <jane@gmail.com>".toList
      "I\x27m a recruiter at Acme Corp".toList 0 10
      0.0).scoring_breakdown.domain_mismatch_risk = 0.30 ∧
    (calculate_threat_score "Jane Doe <jane@gmail.com>".toList
      "I\x27m a recruiter at Acme Corp".toList 0 10
      0.0).scoring_breakdown.content_risk = 0.0 ∧
    (calculate_threat_score "Jane Doe <jane@gmail.com>".toList
      "I\x27m a recruiter at Acme Corp".toList 0 10 0.0).threat_score = 0.70 ∧
    (calculate_threat_score "Jane Doe <jane@gmail.com>".toList
      "I\x27m a recruiter at Acme Corp".toList 0 10
      0.0).mitigation_action_recommended = "FLAG" := by
  have hdm : detect_domain_mismatch "Jane Doe <jane@gmail.com>".toList
      "I\x27m a recruiter at Acme Corp".toList = true := by decide
  refine ⟨?_, ?_, ?_, ?_, ?_⟩ <;>
    simp only [calculate_threat_score, final_threat_score, footprint_risk,
      domain_mismatch_risk_val, content_risk_val, qmin, qmax, hdm, if_true] <;>
    norm_num

/-- The personal-provider list of `FootprintAnalyzer._is_personal_domain`
(lines 123-127); it is larger than the one in `AresBridge`. -/
def personal_domains_footprint : List (List Char) :=
  ["gmail.com".toList, "yahoo.com".toList, "hotmail.com".toList, "outlook.com".toList,
   "icloud.com".toList, "protonmail.com".toList, "aol.com".toList, "mail.com".toList,
   "yandex.com".toList, "zoho.com".toList, "gmx.com".toList]

/-- The footprint record produced by `FootprintAnalyzer`. -/
structure FootprintRecord where
  domain : List Char
  source_count : Int
  age_days : Int
  reputation : String
deriving DecidableEq

/-- `FootprintAnalyzer._default_footprint` (lines 130-137). -/
def default_footprint : FootprintRecord :=
  { domain := "unknown".toList, source_count := 0, age_days := 999, reputation := "unknown" }

/-- `FootprintAnalyzer.get_footprint_data` (lines 33-90), modelled without the
per-domain cache: the cache (lines 53-55, 83-84) only memoizes records
previously computed by this very code path, so every record the analyzer can
return — cached or not — is produced here.  `_extract_domain` (lines 92-111)
lower-cases the matched group; `_is_personal_domain` decides the branch. -/
def get_footprint_data (sender : List Char) : FootprintRecord :=
  match extract_domain sender with
  | none => default_footprint
  | some g =>
    let domain := lowerStr g
    if domain ∈ personal_domains_footprint then
      { domain := domain, source_count := 1, age_days := 365, reputation := "established" }
    else
      { domain := domain, source_count := 10, age_days := 730, reputation := "established" }

/-- Claim C10: the bundled `FootprintAnalyzer` only ever outputs the
`(source_count, age_days)` pairs `(0, 999)`, `(1, 365)` or `(10, 730)`, and
feeding any of its records into `AresBridge.calculate_threat_score` yields a
`footprint_risk` of `0.0` or `0.10` — the `0.40` and `0.20` branches are
unreachable with the bundled analyzer. -/
theorem C10_footprint_risk_range (sender body : List Char) (c : ℚ) :
    ((get_footprint_data sender).source_count = 0 ∧ (get_footprint_data sender).age_days = 999 ∨
     (get_footprint_data sender).source_count = 1 ∧ (get_footprint_data sender).age_days = 365 ∨
     (get_footprint_data sender).source_count = 10 ∧ (get_footprint_data sender).age_days = 730) ∧
    ((calculate_threat_score sender body (get_footprint_data sender).source_count
        (get_footprint_data sender).age_days c).scoring_breakdown.footprint_risk = 0.0 ∨
     (calculate_threat_score sender body (get_footprint_data sender).source_count
        (get_footprint_data sender).age_days c).scoring_breakdown.footprint_risk = 0.10) := by
  have hcases : (get_footprint_data sender).source_count = 0 ∧
      (get_footprint_data sender).age_days = 999 ∨
      (get_footprint_data sender).source_count = 1 ∧
      (get_footprint_data sender).age_days = 365 ∨
      (get_footprint_data sender).source_count = 10 ∧
      (get_footprint_data sender).age_days = 730 := by
    unfold get_footprint_data
    rcases extract_domain sender with _ | g
    · simp [default_footprint]
    · dsimp only
      split <;> simp
  refine ⟨hcases, ?_⟩
  show footprint_risk (get_footprint_data sender).source_count
      (get_footprint_data sender).age_days = 0.0 ∨
    footprint_risk (get_footprint_data sender).source_count
      (get_footprint_data sender).age_days = 0.10
  rcases hcases with ⟨h1, h2⟩ | ⟨h1, h2⟩ | ⟨h1, h2⟩ <;> rw [h1, h2] <;>
    unfold footprint_risk <;> norm_num

/-- The on-disk credential as far as `OAuthTokenManager.load_token` inspects
it: whether the access token is expired and whether a refresh token is
present. -/
structure StoredCreds where
  expired : Bool
  refresh_token : Option String
deriving DecidableEq

/-- The two persistence artefacts of `OAuthTokenManager`: the secret pickle
(`token_path`) and the non-secret JSON metadata (`metadata_path`).
`metadataFile` records only presence, which is all revocation handling
touches. -/
structure TokenStore where
  tokenFile : Option StoredCreds
  metadataFile : Bool
deriving DecidableEq

/-- Outcome of the provider round-trip `creds.refresh(Request())`
(line 112). -/
inductive RefreshOutcome where
  | ok : RefreshOutcome
  | err : String → RefreshOutcome
deriving DecidableEq

/-- `OAuthTokenManager.load_token` (lines 88-133).  Returns the state of the
two files after the call together with the Python return value.  Branches:
missing token file returns `None` (lines 99-101); unexpired credentials are
returned unchanged (line 130); on expiry with a refresh token, a successful
refresh is persisted via `save_token` (line 113) and returned; a refresh
failure whose message contains `invalid_grant` or `revoked` (lower-cased,
lines 116-118) deletes both files (lines 121-122) and re-raises (line 124),
other refresh failures re-raise (line 125), and expiry without a refresh token
raises (line 128) — but every one of those raises is caught by the outer
`except Exception` (lines 131-133), which logs and returns `None`, so the
Python caller observes `None` on every failure path. -/
def load_token (st : TokenStore) (refresh : RefreshOutcome) :
    TokenStore × Option StoredCreds :=
  match st.tokenFile with
  | none => (st, none)
  | some creds =>
    if creds.expired then
      match creds.refresh_token with
      | some _ =>
        match refresh with
        | .ok =>
          let refreshed : StoredCreds := { creds with expired := false }
          ({ tokenFile := some refreshed, metadataFile := true }, some refreshed)
        | .err msg =>
          if containsSub "invalid_grant".toList (lowerStr msg.toList)
              || containsSub "revoked".toList (lowerStr msg.toList) then
            ({ tokenFile := none, metadataFile := false }, none)
          else (st, none)
      | none => (st, none)
    else (st, some creds)

/-- Claim C4 (code bug): loading an expired credential whose refresh fails
with `invalid_grant` does delete both the secret token file and the metadata
file, but the revocation error raised at line 124 is swallowed by the outer
`except Exception: return None` at lines 131-133 — the caller gets `None`,
exactly the same observable result as a missing token file, contradicting the
docstring `Raises: Exception: If token is revoked or cannot be refreshed`. -/
theorem C4_revocation_error_swallowed :
    load_token { tokenFile := some { expired := true, refresh_token := some "tok" },
                 metadataFile := true }
        (.err "invalid_grant: Token has been expired or revoked.")
      = ({ tokenFile := none, metadataFile := false }, none) ∧
    load_token { tokenFile := none, metadataFile := false }
        (.err "invalid_grant: Token has been expired or revoked.")
      = ({ tokenFile := none, metadataFile := false }, none) := by
  exact ⟨by decide, by decide⟩

/-- Characters removed by the substitution
`re.sub(r'[\x00-\x08\x0b-\x0c\x0e-\x1f]', '', text)` in `_validate_text_field`
(`gmail_service.py`, line 121).  Note that the character ranges deliberately
step around `\x0d` (carriage return), which is therefore kept. -/
def removed_by_sub (c : Char) : Bool :=
  (c.toNat ≤ 0x08) || (0x0b ≤ c.toNat && c.toNat ≤ 0x0c)
    || (0x0e ≤ c.toNat && c.toNat ≤ 0x1f)

/-- ASCII whitespace stripped by Python `str.strip()` with no argument
(line 123); after the control-character substitution the only remaining such
characters are space, tab, newline and carriage return. -/
def py_strip_ws (c : Char) : Bool :=
  c == ' ' || c == '\t' || c == '\n' || c == '\r'
    || c.toNat == 0x0b || c.toNat == 0x0c

/-- Python `str.strip()` on ASCII text: drop leading and trailing
whitespace. -/
def strip_ends (l : List Char) : List Char :=
  ((l.dropWhile py_strip_ws).reverse.dropWhile py_strip_ws).reverse

/-- `_validate_text_field` (`gmail_service.py`, lines 99-123): non-string
inputs are outside this model; a value longer than `max_length` raises
`GmailValidationError` (lines 117-118); otherwise control characters are
removed by the substitution of line 121 and the result is stripped
(line 123). -/
def validate_text_field (text : List Char) (field_name : String) (max_length : Nat) :
    Except String (List Char) :=
  if text.length > max_length then
    .error (field_name ++ " exceeds maximum length")
  else
    .ok (strip_ends (text.filter (fun c => !(removed_by_sub c))))

/-- The per-field maxima of `ErikaGmailService` (lines 137-140). -/
def MAX_SUBJECT_LENGTH : Nat := 500

/-- Maximum sender length (line 140). -/
def MAX_SENDER_LENGTH : Nat := 255

/-- Maximum body length (line 139). -/
def MAX_BODY_LENGTH : Nat := 100000

/-- The sanitization actually applied to each field during ingestion
(`ErikaGmailService._get_email_details`, lines 343-353): `_validate_text_field`
is attempted, and if it raises `GmailValidationError` — in this model, any
over-length value — the field falls back to plain slicing `value[:limit]`. -/
def sanitize_field (text : List Char) (field_name : String) (max_length : Nat) : List Char :=
  match validate_text_field text field_name max_length with
  | .ok v => v
  | .error _ => text.take max_length

theorem mem_strip_ends {c : Char} {l : List Char} (h : c ∈ strip_ends l) : c ∈ l := by
  unfold strip_ends at h
  rw [List.mem_reverse] at h
  have h2 := ((l.dropWhile py_strip_ws).reverse.dropWhile_sublist py_strip_ws).mem h
  rw [List.mem_reverse] at h2
  exact (l.dropWhile_sublist py_strip_ws).mem h2

/-- Claim C5 (amended): on every input it accepts, `_validate_text_field`
removes every control character below `0x20` except tab (`0x09`), newline
(`0x0a`) and carriage return (`0x0d`); the carriage return is kept because the
substitution ranges `\x0b-\x0c` and `\x0e-\x1f` step around it. -/
theorem C5_control_characters_removed (text : List Char) (field_name : String)
    (max_length : Nat) (out : List Char)
    (hok : validate_text_field text field_name max_length = .ok out) :
    ∀ c ∈ out, c.toNat < 0x20 →
      c.toNat = 0x09 ∨ c.toNat = 0x0a ∨ c.toNat = 0x0d := by
  intro c hc hlt
  unfold validate_text_field at hok
  split at hok
  · exact absurd hok (by simp)
  · have hout : out = strip_ends (text.filter (fun c => !(removed_by_sub c))) := by
      injection hok with h
      exact h.symm
    rw [hout] at hc
    have hmem := mem_strip_ends hc
    have hkeep := (List.mem_filter.mp hmem).2
    simp only [Bool.not_eq_true'] at hkeep
    unfold removed_by_sub at hkeep
    simp only [Bool.or_eq_false_iff, Bool.and_eq_false_iff, decide_eq_false_iff_not,
      not_le] at hkeep
    omega

deriving instance DecidableEq for Except

/-- Claim C5 witness: a concrete accepted input containing a tab. -/
theorem C5_control_characters_removed_witness :
    validate_text_field "ab\tc".toList "subject" 500 = .ok "ab\tc".toList ∧
    ('\t'.toNat = 0x09 ∨ '\t'.toNat = 0x0a ∨ '\t'.toNat = 0x0d) := by
  refine ⟨by decide, ?_⟩
  exact C5_control_characters_removed "ab\tc".toList "subject" 500 "ab\tc".toList
    (by decide) '\t' (by decide) (by decide)

/-- Claim C5 counterexample: a carriage return (`0x0d`, below `0x20` and
neither tab nor newline) survives sanitization. -/
theorem C5_carriage_return_kept :
    validate_text_field "a\x0db".toList "body" 500 = .ok "a\x0db".toList ∧
    '\x0d' ∈ "a\x0db".toList ∧ '\x0d'.toNat < 0x20 ∧
    '\x0d'.toNat ≠ 0x09 ∧ '\x0d'.toNat ≠ 0x0a := by
  refine ⟨by decide, by decide, by decide, by decide, by decide⟩

/-- Claim C6: for each field kind with its hard maximum (subject 500,
sender 255, body 100000), the ingestion-path sanitizer truncates an
over-length value to the limit instead of rejecting the message:
`_validate_text_field` raises on the over-length value, the handler at
`_get_email_details` lines 348-353 catches it and slices to the limit. -/
theorem C6_overlong_fields_truncated (text : List Char) (field_name : String)
    (limit : Nat)
    (_hfield : limit = MAX_SUBJECT_LENGTH ∨ limit = MAX_SENDER_LENGTH ∨
      limit = MAX_BODY_LENGTH)
    (hlong : text.length > limit) :
    sanitize_field text field_name limit = text.take limit := by
  unfold sanitize_field validate_text_field
  rw [if_pos hlong]

/-- Claim C6 witness: a 256-character sender value is truncated to 255. -/
theorem C6_overlong_fields_truncated_witness :
    (List.replicate 256 'a').length > MAX_SENDER_LENGTH ∧
    sanitize_field (List.replicate 256 'a') "sender" MAX_SENDER_LENGTH
      = (List.replicate 256 'a').take MAX_SENDER_LENGTH := by
  have hlen : (List.replicate 256 'a').length > MAX_SENDER_LENGTH := by
    rw [List.length_replicate]
    norm_num [MAX_SENDER_LENGTH]
  exact ⟨hlen, C6_overlong_fields_truncated (List.replicate 256 'a') "sender"
    MAX_SENDER_LENGTH (Or.inr (Or.inl rfl)) hlen⟩

/-- The structured status object returned by
`AresBridge.request_client_mitigation` (docstring lines 214-222). -/
structure MitigationResult where
  status : String
  message_id : String
  action : String
  labels_applied : List String
  labels_removed : List String
  error : Option String
  error_code : Option String
deriving DecidableEq

/-- The action-to-label-delta mapping of `request_client_mitigation`
(lines 229-236): `none` for an action outside the three supported ones. -/
def action_labels (a : String) : Option (List String × List String) :=
  if a = "MARK_AS_PHISHING" then some (["SPAM", "PHISHING_DETECTED_BY_ERIKA"], ["INBOX"])
  else if a = "MARK_AS_SPAM" then some (["SPAM"], ["INBOX"])
  else if a = "MARK_AS_READ" then some ([], ["UNREAD"])
  else none

/-- The required Gmail scope checked at line 251. -/
def modify_scope : String := "https://www.googleapis.com/auth/gmail.modify"

/-- The error classification of the generic `except` branch
(lines 287-300), applied to the lower-cased error text. -/
def classify_api_error (msg : String) : String :=
  let s := lowerStr msg.toList
  if containsSub "403".toList s || containsSub "insufficient".toList s
      || containsSub "scope".toList s then "INSUFFICIENT_SCOPE"
  else if containsSub "401".toList s || containsSub "unauthorized".toList s then
    "UNAUTHORIZED"
  else if containsSub "404".toList s || containsSub "not found".toList s then
    "MESSAGE_NOT_FOUND"
  else "UNKNOWN_API_ERROR"

/-- `AresBridge.request_client_mitigation` (lines 200-313).  The Gmail
round-trip (`build` + `messages().modify().execute()`, lines 255-269) is
abstracted by the `api` parameter: `.ok ()` for a successful modification,
`.error msg` for a raised API/network error.  The second component of the
result records whether that provider call was reached: an unsupported action
returns at lines 239-247 before it, and the scope check at lines 251-252
raises `PermissionError` before it (handled at lines 283-285); both fail with
empty label lists as in the final return at lines 305-313. -/
def request_client_mitigation (email_client_id mitigation_action : String)
    (scopes : List String) (api : Except String Unit) : MitigationResult × Bool :=
  match action_labels mitigation_action with
  | none =>
    ({ status := "FAILURE", message_id := email_client_id, action := mitigation_action
     , labels_applied := [], labels_removed := []
     , error := some ("Unknown mitigation action: " ++ mitigation_action)
     , error_code := some "UNSUPPORTED_ACTION" }, false)
  | some (add_labels, remove_labels) =>
    if modify_scope ∈ scopes then
      match api with
      | .ok _ =>
        ({ status := "SUCCESS", message_id := email_client_id, action := mitigation_action
         , labels_applied := add_labels, labels_removed := remove_labels
         , error := none, error_code := none }, true)
      | .error e =>
        ({ status := "FAILURE", message_id := email_client_id, action := mitigation_action
         , labels_applied := [], labels_removed := []
         , error := some e, error_code := some (classify_api_error e) }, true)
    else
      ({ status := "FAILURE", message_id := email_client_id, action := mitigation_action
       , labels_applied := [], labels_removed := []
       , error := some "Missing \x27gmail.modify\x27 scope for mitigation action."
       , error_code := some "INSUFFICIENT_SCOPE" }, false)

/-- Claim C7: `request_client_mitigation` fails fast with no provider call
both for an action outside the three supported ones (`UNSUPPORTED_ACTION`)
and for a supported action whose credential lacks the `gmail.modify` scope
(`INSUFFICIENT_SCOPE`); the unsupported-action check comes first. -/
theorem C7_fail_fast_no_network (id act : String) (scopes : List String)
    (api : Except String Unit)
    (h : action_labels act = none ∨ modify_scope ∉ scopes) :
    (request_client_mitigation id act scopes api).1.status = "FAILURE" ∧
    (request_client_mitigation id act scopes api).2 = false ∧
    (request_client_mitigation id act scopes api).1.error_code =
      some (if action_labels act = none then "UNSUPPORTED_ACTION"
            else "INSUFFICIENT_SCOPE") := by
  unfold request_client_mitigation
  cases hA : action_labels act with
  | none => simp [hA]
  | some pair =>
    obtain ⟨add_labels, remove_labels⟩ := pair
    dsimp only
    rcases h with h | h
    · rw [h] at hA
      exact Option.noConfusion hA
    · rw [if_neg h]
      simp [hA]

/-- Claim C7 witness: concrete unsupported action, concrete missing scope. -/
theorem C7_fail_fast_no_network_witness :
    (request_client_mitigation "msg-1" "DELETE_FOREVER" [] (.ok ())).1.status
      = "FAILURE" ∧
    (request_client_mitigation "msg-1" "DELETE_FOREVER" [] (.ok ())).2 = false := by
  have h := C7_fail_fast_no_network "msg-1" "DELETE_FOREVER" [] (.ok ())
    (Or.inl (by decide))
  exact ⟨h.1, h.2.1⟩

/-- Claim C8 (amended): every result of `request_client_mitigation` reports
the attempted action, and a `SUCCESS` result carries exactly the label delta
of the action; but every `FAILURE` result carries empty `labels_applied` and
`labels_removed` lists (final return, lines 305-313), so failures do not
report which labels were attempted. -/
theorem C8_labels_reported (id act : String) (scopes : List String)
    (api : Except String Unit) :
    (request_client_mitigation id act scopes api).1.action = act ∧
    ((request_client_mitigation id act scopes api).1.status = "SUCCESS" →
      action_labels act = some ((request_client_mitigation id act scopes api).1.labels_applied,
        (request_client_mitigation id act scopes api).1.labels_removed)) ∧
    ((request_client_mitigation id act scopes api).1.status = "FAILURE" →
      (request_client_mitigation id act scopes api).1.labels_applied = [] ∧
      (request_client_mitigation id act scopes api).1.labels_removed = []) := by
  unfold request_client_mitigation
  cases hA : action_labels act with
  | none => simp
  | some pair =>
    obtain ⟨add_labels, remove_labels⟩ := pair
    dsimp only
    by_cases hs : modify_scope ∈ scopes
    · rw [if_pos hs]
      cases api with
      | ok u => simp [hA]
      | error e => simp
    · rw [if_neg hs]
      simp

/-- Claim C8 witness: a concrete successful mitigation reports the label
delta of its action. -/
theorem C8_labels_reported_witness :
    action_labels "MARK_AS_READ" =
      some ((request_client_mitigation "msg-2" "MARK_AS_READ" [modify_scope]
              (.ok ())).1.labels_applied,
            (request_client_mitigation "msg-2" "MARK_AS_READ" [modify_scope]
              (.ok ())).1.labels_removed) := by
  exact (C8_labels_reported "msg-2" "MARK_AS_READ" [modify_scope] (.ok ())).2.1 (by decide)

/-- Claim C8 counterexample: a mitigation that fails the scope check returns
`labels_applied = []`, although the label delta of `MARK_AS_SPAM` says the
label `SPAM` was to be applied — the failure result does not report the
attempted labels. -/
theorem C8_failure_labels_counterexample :
    (request_client_mitigation "msg-3" "MARK_AS_SPAM" [] (.ok ())).1.status = "FAILURE" ∧
    action_labels "MARK_AS_SPAM" = some (["SPAM"], ["INBOX"]) ∧
    (request_client_mitigation "msg-3" "MARK_AS_SPAM" [] (.ok ())).1.labels_applied
      ≠ ["SPAM"] := by
  refine ⟨by decide, by decide, by decide⟩

/-- One reverse-image-search match record as consumed by
`ReverseImageSearchService._analyze_results`: the fields read are
`match.get('domain', '')`, `match.get('title', '')` and
`match.get('context', '')`. -/
structure SearchMatch where
  domain : List Char
  title : List Char
  context : List Char
deriving DecidableEq

/-- The identity dictionary built by
`ReverseImageSearchService._extract_identity` (lines 264-270).  `name`,
`role` and `company` are stored as `None` when not found, which matters:
`_categorize_identities` and `verify_email_sender` call `.lower()` on the
stored value, so a stored `None` raises `AttributeError`. -/
structure Identity where
  name : Option (List Char)
  role : Option (List Char)
  company : Option (List Char)
  source : List Char
deriving DecidableEq

/-- Characters of the regex class `\s`. -/
def is_regex_ws (c : Char) : Bool :=
  c == ' ' || c == '\t' || c == '\n' || c == '\r'
    || c.toNat == 0x0b || c.toNat == 0x0c

/-- Characters of the regex class `[a-zA-Z\s&]`. -/
def is_company_char (c : Char) : Bool := c.isAlpha || is_regex_ws c || c == '&'

/-- Match of `([A-Z][a-z]+ [A-Z][a-z]+)` at the start of `l` (`_extract_identity`
line 239).  The greedy `[a-z]+` runs are maximal; since the character after a
maximal lower-case run is never lower-case, backtracking cannot help, so the
match is deterministic. -/
def match_name_pair_at (l : List Char) : Option (List Char) :=
  match l with
  | [] => none
  | c1 :: rest =>
    if c1.isUpper then
      let r1 := rest.takeWhile Char.isLower
      if r1.length = 0 then none
      else
        match rest.drop r1.length with
        | ' ' :: c2 :: rest3 =>
          if c2.isUpper then
            let r2 := rest3.takeWhile Char.isLower
            if r2.length = 0 then none
            else some (c1 :: (r1 ++ ' ' :: c2 :: r2))
          else none
        | _ => none
    else none

/-- `re.search` scan for the two-word-name pattern. -/
def search_name_pair : List Char → Option (List Char)
  | [] => none
  | c :: t =>
    match match_name_pair_at (c :: t) with
    | some m => some m
    | none => search_name_pair t

/-- Match of the fallback pattern `([A-Z][a-z]+)` at the start of `l`
(`_extract_identity` line 242). -/
def match_single_name_at (l : List Char) : Option (List Char) :=
  match l with
  | [] => none
  | c1 :: rest =>
    if c1.isUpper then
      let r1 := rest.takeWhile Char.isLower
      if r1.length = 0 then none else some (c1 :: r1)
    else none

/-- `re.search` scan for the single-name pattern. -/
def search_single_name : List Char → Option (List Char)
  | [] => none
  | c :: t =>
    match match_single_name_at (c :: t) with
    | some m => some m
    | none => search_single_name t

/-- Match of `(?:at|from|of|with)\s+([A-Z][a-zA-Z\s&]+)` at the start of `l`
(`_extract_identity` line 260), returning the capture group.  The four
alternation literals start with distinct characters, so at most one applies at
a given position; `\s+` is maximal (a shorter run would leave a whitespace
character where `[A-Z]` is required). -/
def match_company_at (l : List Char) : Option (List Char) :=
  match ["at".toList, "from".toList, "of".toList, "with".toList].find?
      (fun p => p.isPrefixOf l) with
  | none => none
  | some p =>
    let rest := l.drop p.length
    let ws := rest.takeWhile is_regex_ws
    if ws.length = 0 then none
    else
      match rest.drop ws.length with
      | [] => none
      | c :: r =>
        if c.isUpper then
          let run := r.takeWhile is_company_char
          if run.length = 0 then none else some (c :: run)
        else none

/-- `re.search` scan for the company pattern. -/
def search_company : List Char → Option (List Char)
  | [] => none
  | c :: t =>
    match match_company_at (c :: t) with
    | some m => some m
    | none => search_company t

/-- The role keywords of `_extract_identity` (lines 251-252), checked in
order with break on the first hit. -/
def identity_roles : List (List Char) :=
  ["recruiter".toList, "headhunter".toList, "real estate".toList, "realtor".toList,
   "attorney".toList, "lawyer".toList, "agent".toList, "director".toList,
   "manager".toList, "executive".toList]

/-- `ReverseImageSearchService._extract_identity` (lines 224-272): the name
patterns run on the original-case `title`; the role and company searches run
on `f"{title} {context}".lower()`; the company group is stripped (line 262);
a dictionary is returned iff any of name, role, company was found. -/
def extract_identity (title context : List Char) : Option Identity :=
  let text := lowerStr (title ++ ' ' :: context)
  let name :=
    match search_name_pair title with
    | some n => some n
    | none => search_single_name title
  let role := identity_roles.find? (fun r => containsSub r text)
  let company := (search_company text).map strip_ends
  if name.isSome || role.isSome || company.isSome then
    some { name := name, role := role, company := company, source := title }
  else none

/-- One iteration of `_categorize_identities` (lines 286-297) on an
already-lower-cased role string. -/
def categorize_one (role : List Char) : List Char :=
  if containsSub "recruiter".toList role || containsSub "headhunter".toList role then
    "recruiter".toList
  else if containsSub "real estate".toList role || containsSub "realtor".toList role then
    "real_estate".toList
  else if containsSub "attorney".toList role || containsSub "lawyer".toList role
      || containsSub "law".toList role then
    "legal".toList
  else if containsSub "director".toList role || containsSub "manager".toList role then
    "corporate".toList
  else "other".toList

/-- The `identity.get('role', '').lower()` step of `_categorize_identities`
(line 287) for each identity: the `role` key is always present in the
dictionaries built by `_extract_identity`, so `dict.get` returns the stored
value — and when that value is `None`, `None.lower()` raises
`AttributeError`. -/
def roles_lowered : List Identity → Except String (List (List Char))
  | [] => .ok []
  | i :: rest =>
    match i.role with
    | none => .error "AttributeError: \x27NoneType\x27 object has no attribute \x27lower\x27"
    | some r =>
      match roles_lowered rest with
      | .error e => .error e
      | .ok rs => .ok (lowerStr r :: rs)

/-- `ReverseImageSearchService._categorize_identities` (lines 274-299): the
distinct categories of the identities (a Python `set`; only its size feeds the
risk score, so the first-occurrence order used here is immaterial). -/
def categorize_identities (l : List Identity) : Except String (List (List Char)) :=
  match roles_lowered l with
  | .error e => .error e
  | .ok rs => .ok ((rs.map categorize_one).eraseDups)

/-- The suspicious-domain keywords of `_analyze_results` (line 194). -/
def suspicious_domains : List (List Char) :=
  ["law".toList, "real estate".toList, "attorney".toList, "lawyer".toList,
   "realtor".toList]

/-- The `domains` set of `_analyze_results` (lines 137, 142-145): the distinct
non-empty match domains (first-occurrence order; only size and membership are
used downstream). -/
def analysis_domains (ms : List SearchMatch) : List (List Char) :=
  (ms.filterMap (fun m => if m.domain = [] then none else some m.domain)).eraseDups

/-- The `identities` list of `_analyze_results` (lines 138, 147-152). -/
def analysis_identities (ms : List SearchMatch) : List Identity :=
  ms.filterMap (fun m => if m.title = [] then none else extract_identity m.title m.context)

/-- The Facebook matches of pattern 3 (lines 178-191): every match whose
domain contains `facebook` adds `0.3`, unconditionally — the `title` local
read at line 182 is never used and `_analyze_results` receives no claimed
sender name to compare against. -/
def facebook_match_count (ms : List SearchMatch) : Nat :=
  (ms.filter (fun m => containsSub "facebook".toList (lowerStr m.domain))).length

/-- The domains of pattern 4 (lines 193-206): each distinct domain containing
a suspicious keyword adds `0.2` (inner break, so once per domain). -/
def suspicious_domain_count (ms : List SearchMatch) : Nat :=
  ((analysis_domains ms).filter
    (fun d => suspicious_domains.any (fun s => containsSub s (lowerStr d)))).length

/-- The analysis dictionary of `_analyze_results` (lines 216-222), minus the
human-readable text, which feeds nothing numeric. -/
structure AnalysisSummary where
  domains : List (List Char)
  identities : List Identity
  risk_score : ℚ
deriving DecidableEq

/-- `ReverseImageSearchService._analyze_results` (lines 121-222): risk is the
sum of pattern 1 (`+0.2` if more than three distinct domains), pattern 2
(`+0.4` if the identities span more than one category), pattern 3 (`+0.3` per
Facebook match) and pattern 4 (`+0.2` per suspicious domain), capped at `1.0`
(line 209).  The `.error` case models the uncaught `AttributeError` from
`_categorize_identities` on an identity whose stored role is `None`. -/
def analyze_results (ms : List SearchMatch) : Except String AnalysisSummary :=
  match categorize_identities (analysis_identities ms) with
  | .error e => .error e
  | .ok cats =>
    .ok { domains := analysis_domains ms
        , identities := analysis_identities ms
        , risk_score :=
            qmin ((if (analysis_domains ms).length > 3 then 0.2 else 0.0)
              + (if cats.length > 1 then 0.4 else 0.0)
              + 0.3 * (facebook_match_count ms : ℚ)
              + 0.2 * (suspicious_domain_count ms : ℚ)) 1.0 }

/-- The `risk_score` field of `ReverseImageSearchService.search_image`
(lines 49-90): the analysis value on success, `0.5` from the `except` fallback
(lines 81-90) when the analysis raises. -/
def search_image_risk (ms : List SearchMatch) : ℚ :=
  match analyze_results ms with
  | .ok a => a.risk_score
  | .error _ => 0.5

/-- The `identities` field of `search_image` (`[]` on the fallback path). -/
def search_image_identities (ms : List SearchMatch) : List Identity :=
  match analyze_results ms with
  | .ok a => a.identities
  | .error _ => []

/-- `email_data.get('sender', '').split('<')[0].strip()`
(`verify_email_sender`, line 364). -/
def claimed_sender_name (sender : List Char) : List Char :=
  strip_ends (sender.takeWhile (fun c => !(c == '<')))

/-- The name-mismatch loop of `verify_email_sender` (lines 383-391): the first
identity whose stored name is non-empty and shares no containment with the
claimed name (in either direction) triggers the mismatch bonus and breaks;
a stored `None` name raises `AttributeError` at `identity.get('name', '').lower()`
(line 387). -/
def name_mismatch_scan (claimed_lower : List Char) : List Identity → Except String Bool
  | [] => .ok false
  | i :: rest =>
    match i.name with
    | none => .error "AttributeError: \x27NoneType\x27 object has no attribute \x27lower\x27"
    | some n =>
      let nl := lowerStr n
      if nl ≠ [] ∧ containsSub nl claimed_lower = false
          ∧ containsSub claimed_lower nl = false then
        .ok true
      else name_mismatch_scan claimed_lower rest

/-- The `risk_score` computed by
`ReverseImageSearchService.verify_email_sender` (lines 348-413) when an image
is present, as a function of the search matches: the `search_image` risk, plus
`0.2` (capped at `1.0`, line 390) when the name-mismatch loop fires. -/
def verify_email_sender_risk (sender : List Char) (ms : List SearchMatch) :
    Except String ℚ :=
  if claimed_sender_name sender ≠ [] ∧ search_image_identities ms ≠ [] then
    match name_mismatch_scan (lowerStr (claimed_sender_name sender))
        (search_image_identities ms) with
    | .error e => .error e
    | .ok true => .ok (qmin (search_image_risk ms + 0.2) 1.0)
    | .ok false => .ok (search_image_risk ms)
  else .ok (search_image_risk ms)


/-- A concrete search match: found on `facebook.com`, displaying the name
`Jane Doe` (with a recruiter role so that the stored role is not `None`). -/
def fb_match : SearchMatch :=
  { domain := "facebook.com".toList, title := "Jane Doe Recruiter".toList, context := [] }

/-- The identity `_extract_identity` derives from `fb_match`. -/
def jane_identity : Identity :=
  { name := some "Jane Doe".toList, role := some "recruiter".toList,
    company := none, source := "Jane Doe Recruiter".toList }

/-- Claim C9 (code bug): `_analyze_results` adds the `+0.3`
social-network (Facebook) contribution unconditionally — it never receives
the claimed sender name and the `title` it reads at line 182 is unused, with
the comparison left as a comment (lines 183-184).  Concretely, a single
Facebook match whose displayed name `Jane Doe` agrees with the claimed sender
`Jane Doe <jane@gmail.com>` (the extracted identity name is contained in the
claimed name, so even the later `verify_email_sender` name check finds no
mismatch) still produces a risk score of `0.3`, where the specified behaviour
is a zero contribution. -/
theorem C9_facebook_risk_unconditional :
    analysis_identities [fb_match] = [jane_identity] ∧
    containsSub (lowerStr "Jane Doe".toList)
      (lowerStr (claimed_sender_name "Jane Doe <jane@gmail.com>".toList)) = true ∧
    verify_email_sender_risk "Jane Doe <jane@gmail.com>".toList [fb_match] = .ok 0.3 ∧
    (0.3 : ℚ) ≠ 0 := by
  have hident : analysis_identities [fb_match] = [jane_identity] := by decide
  have hcats : categorize_identities [jane_identity] = .ok ["recruiter".toList] := by decide
  have hdoms : analysis_domains [fb_match] = ["facebook.com".toList] := by decide
  have hfb : facebook_match_count [fb_match] = 1 := by decide
  have hsus : suspicious_domain_count [fb_match] = 0 := by decide
  have hA : analyze_results [fb_match] =
      .ok { domains := ["facebook.com".toList], identities := [jane_identity]
          , risk_score := 0.3 } := by
    unfold analyze_results
    rw [hident, hcats, hdoms, hfb, hsus]
    dsimp only
    norm_num [qmin]
  have hclaimed : claimed_sender_name "Jane Doe <jane@gmail.com>".toList
      = "Jane Doe".toList := by decide
  have hscan : name_mismatch_scan (lowerStr "Jane Doe".toList) [jane_identity]
      = .ok false := by decide
  refine ⟨hident, by decide, ?_, by norm_num⟩
  unfold verify_email_sender_risk search_image_identities search_image_risk
  rw [hA, hclaimed]
  dsimp only
  rw [if_pos ⟨by decide, by decide⟩, hscan]
